import Mathlib

/-!
# Verification of the KCIDB URL-caching system

A shallow embedding of the cache engine and redirect gateway of the KCIDB
repository (`kcidb/cache/__init__.py` and `main.py`), together with proofs
of the specified properties.

Machine integers are modelled as `Nat`/`Int` with explicit reductions
modulo `2 ^ 32` where the SHA-256 algorithm wraps.  Python-level failures
(exceptions) are modelled explicitly: every operation that can raise
returns an outcome marking either normal return or the escaping exception.
All definitions are executable so that concrete witnesses can be checked
by evaluation.
-/

namespace KcidbCache

/-! ## Bytes, hex and UTF-8

Bytes are `Nat`s below 256.  `hexDigit`/`byteToHex` render the lowercase
hexadecimal digest characters exactly as Python's `hashlib` `hexdigest`
does. -/

/-- Lowercase hexadecimal digit for a value below 16. -/
def hexDigit (n : Nat) : Char :=
  if n < 10 then Char.ofNat (48 + n) else Char.ofNat (87 + n)

/-- Render one byte as two lowercase hexadecimal characters. -/
def byteToHex (b : Nat) : List Char :=
  [hexDigit (b / 16), hexDigit (b % 16)]

/-- Render a byte string as its lowercase hexadecimal digest string. -/
def bytesToHex (bs : List Nat) : String :=
  String.mk (bs.map byteToHex).flatten

/-- UTF-8 encoding of a single character (code point) into bytes,
as performed by Python's `str.encode()`. -/
def utf8EncodeChar (c : Char) : List Nat :=
  let n := c.toNat
  if n < 0x80 then [n]
  else if n < 0x800 then
    [0xC0 ||| (n >>> 6), 0x80 ||| (n &&& 0x3F)]
  else if n < 0x10000 then
    [0xE0 ||| (n >>> 12), 0x80 ||| ((n >>> 6) &&& 0x3F), 0x80 ||| (n &&& 0x3F)]
  else
    [0xF0 ||| (n >>> 18), 0x80 ||| ((n >>> 12) &&& 0x3F),
     0x80 ||| ((n >>> 6) &&& 0x3F), 0x80 ||| (n &&& 0x3F)]

/-- UTF-8 encoding of a string into bytes (Python `str.encode()`). -/
def utf8Encode (s : String) : List Nat :=
  (s.data.map utf8EncodeChar).flatten

/-! ## SHA-256

A direct executable implementation of FIPS 180-4 SHA-256 over byte lists,
used by `_format_object_name` (Python `hashlib.sha256(url.encode())`).
Words are `Nat`s kept below `2 ^ 32` by `w32`. -/

/-- Reduce to a 32-bit word. -/
def w32 (n : Nat) : Nat := n % 4294967296

/-- 32-bit right rotation (input assumed below `2 ^ 32`). -/
def rotr (x k : Nat) : Nat := (x >>> k) ||| w32 (x <<< (32 - k))

def shaCh (x y z : Nat) : Nat := (x &&& y) ^^^ ((4294967295 - x) &&& z)

def shaMaj (x y z : Nat) : Nat := (x &&& y) ^^^ (x &&& z) ^^^ (y &&& z)

def bsig0 (x : Nat) : Nat := rotr x 2 ^^^ rotr x 13 ^^^ rotr x 22

def bsig1 (x : Nat) : Nat := rotr x 6 ^^^ rotr x 11 ^^^ rotr x 25

def ssig0 (x : Nat) : Nat := rotr x 7 ^^^ rotr x 18 ^^^ (x >>> 3)

def ssig1 (x : Nat) : Nat := rotr x 17 ^^^ rotr x 19 ^^^ (x >>> 10)

/-- The 64 SHA-256 round constants. -/
def sha256K : List Nat :=
  [1116352408, 1899447441, 3049323471, 3921009573, 961987163,
   1508970993, 2453635748, 2870763221, 3624381080, 310598401,
   607225278, 1426881987, 1925078388, 2162078206, 2614888103,
   3248222580, 3835390401, 4022224774, 264347078, 604807628,
   770255983, 1249150122, 1555081692, 1996064986, 2554220882,
   2821834349, 2952996808, 3210313671, 3336571891, 3584528711,
   113926993, 338241895, 666307205, 773529912, 1294757372,
   1396182291, 1695183700, 1986661051, 2177026350, 2456956037,
   2730485921, 2820302411, 3259730800, 3345764771, 3516065817,
   3600352804, 4094571909, 275423344, 430227734, 506948616,
   659060556, 883997877, 958139571, 1322822218, 1537002063,
   1747873779, 1955562222, 2024104815, 2227730452, 2361852424,
   2428436474, 2756734187, 3204031479, 3329325298]

/-- The SHA-256 initial hash value. -/
def sha256H0 : List Nat :=
  [1779033703, 3144134277, 1013904242, 2773480762,
   1359893119, 2600822924, 528734635, 1541459225]

/-- FIPS 180-4 message padding: append `0x80`, zero bytes, and the 64-bit
big-endian bit length, to a multiple of 64 bytes. -/
def sha256Pad (msg : List Nat) : List Nat :=
  let len := msg.length
  let zeros := (64 - (len + 9) % 64) % 64
  let bitLen := len * 8
  msg ++ [0x80] ++ List.replicate zeros 0 ++
    [w32 (bitLen >>> 56) % 256, (bitLen >>> 48) % 256, (bitLen >>> 40) % 256,
     (bitLen >>> 32) % 256, (bitLen >>> 24) % 256, (bitLen >>> 16) % 256,
     (bitLen >>> 8) % 256, bitLen % 256]

/-- Big-endian 32-bit words from groups of four bytes. -/
def bytesToWords : List Nat → List Nat
  | b0 :: b1 :: b2 :: b3 :: rest =>
    (b0 * 16777216 + b1 * 65536 + b2 * 256 + b3) :: bytesToWords rest
  | _ => []

/-- One step of the message-schedule extension: append
`σ1(W[n-2]) + W[n-7] + σ0(W[n-15]) + W[n-16] (mod 2^32)`. -/
def sha256ExtendStep (ws : List Nat) : List Nat :=
  let n := ws.length
  ws ++ [w32 (ssig1 (ws.getD (n - 2) 0) + ws.getD (n - 7) 0 +
              ssig0 (ws.getD (n - 15) 0) + ws.getD (n - 16) 0)]

/-- Iterate a function `n` times. -/
def iterApply (f : α → α) : Nat → α → α
  | 0, a => a
  | n + 1, a => iterApply f n (f a)

/-- The full 64-word message schedule of one 16-word block. -/
def sha256Schedule (ws : List Nat) : List Nat :=
  iterApply sha256ExtendStep 48 ws

/-- One SHA-256 compression round on the eight-word working state. -/
def sha256Round (st : List Nat) (kw : Nat × Nat) : List Nat :=
  match st with
  | [a, b, c, d, e, f, g, h] =>
    let t1 := w32 (h + bsig1 e + shaCh e f g + kw.1 + kw.2)
    let t2 := w32 (bsig0 a + shaMaj a b c)
    [w32 (t1 + t2), a, b, c, w32 (d + t1), e, f, g]
  | other => other

/-- Compress one 64-byte chunk into the running hash value. -/
def sha256Compress (hv : List Nat) (chunk : List Nat) : List Nat :=
  let ws := sha256Schedule (bytesToWords chunk)
  let st := (sha256K.zip ws).foldl sha256Round hv
  List.zipWith (fun x y => w32 (x + y)) hv st

/-- Fold `sha256Compress` over the padded message, 64 bytes at a time.
Structural recursion on explicit fuel so that the kernel can evaluate it;
each step consumes 64 bytes, so fuel equal to the byte count suffices. -/
def sha256Fold (fuel : Nat) (hv : List Nat) (bs : List Nat) : List Nat :=
  match fuel, bs with
  | _, [] => hv
  | 0, _ => hv
  | f + 1, bs => sha256Fold f (sha256Compress hv (bs.take 64)) (bs.drop 64)

/-- SHA-256 digest of a byte string, as 32 digest bytes. -/
def sha256Bytes (msg : List Nat) : List Nat :=
  let padded := sha256Pad msg
  let hv := sha256Fold padded.length sha256H0 padded
  (hv.map (fun word =>
    [word >>> 24 % 256, word >>> 16 % 256, word >>> 8 % 256, word % 256])).flatten

/-- SHA-256 lowercase hexadecimal digest of a byte string
(Python `hashlib.sha256(b).hexdigest()`). -/
def sha256Hex (msg : List Nat) : String :=
  bytesToHex (sha256Bytes msg)

/-! ## Models of the Python standard-library functions the code calls

`int()`, `str.splitlines()`, `base64.b64decode()`, `bytes.decode()`,
`urllib.parse.unquote()`, `urllib.parse.urlparse().path`,
`str.rsplit('/', 1)[-1]` and `email.header.Header(s, "utf-8").encode()`.
Each is modelled from CPython's behaviour on the value domains the code
feeds it (ASCII header values, ASCII-decoded query strings). -/

/-- ASCII whitespace stripped by Python `int()` / `str.strip()`. -/
def isPyWs (c : Char) : Bool :=
  c = ' ' ∨ c = '\t' ∨ c = '\n' ∨ c = '\r' ∨ c.toNat = 11 ∨ c.toNat = 12

/-- Digit run of Python `int()` after the first digit: further digits with
single underscores allowed between digits only. -/
def pyIntRun (acc : Nat) : List Char → Option Nat
  | [] => some acc
  | '_' :: c :: cs =>
    if c.isDigit then pyIntRun (acc * 10 + (c.toNat - 48)) cs else none
  | c :: cs =>
    if c.isDigit then pyIntRun (acc * 10 + (c.toNat - 48)) cs else none

/-- Model of Python `int(s)` on an ASCII decimal string: surrounding
whitespace stripped, optional sign, digits with legal underscores; `none`
models the `ValueError` raised otherwise. -/
def pyIntParse (s : String) : Option Int :=
  let cs := ((s.data.dropWhile isPyWs).reverse.dropWhile isPyWs).reverse
  match cs with
  | '+' :: c :: rest =>
    if c.isDigit then (pyIntRun (c.toNat - 48) rest).map Int.ofNat else none
  | '-' :: c :: rest =>
    if c.isDigit then (pyIntRun (c.toNat - 48) rest).map (fun n => -(n : Int))
    else none
  | [c] =>
    if c.isDigit then some (Int.ofNat (c.toNat - 48)) else none
  | c :: rest =>
    if c.isDigit ∧ c ≠ '+' ∧ c ≠ '-' then
      (pyIntRun (c.toNat - 48) rest).map Int.ofNat
    else none
  | [] => none

/-- The line-boundary characters of Python `str.splitlines()`. -/
def isLineBreak (c : Char) : Bool :=
  [10, 13, 11, 12, 28, 29, 30, 133, 8232, 8233].contains c.toNat

/-- Worker for `pySplitlines`: accumulated current line (reversed) and
remaining input; `\r\n` counts as a single break. -/
def pySplitlinesAux : List Char → List Char → List String
  | cur, [] => if cur.isEmpty then [] else [String.mk cur.reverse]
  | cur, '\r' :: '\n' :: cs => String.mk cur.reverse :: pySplitlinesAux [] cs
  | cur, c :: cs =>
    if isLineBreak c then String.mk cur.reverse :: pySplitlinesAux [] cs
    else pySplitlinesAux (c :: cur) cs

/-- Model of Python `str.splitlines()`. -/
def pySplitlines (s : String) : List String :=
  pySplitlinesAux [] s.data

/-- Model of Python `s.endswith(t)`: `t` is a suffix of `s`. -/
def pyEndsWith (s t : String) : Bool :=
  t.data.isSuffixOf s.data

/-- Base64 alphabet value of a character, `none` for non-alphabet. -/
def b64Val (c : Char) : Option Nat :=
  let n := c.toNat
  if 65 ≤ n ∧ n ≤ 90 then some (n - 65)
  else if 97 ≤ n ∧ n ≤ 122 then some (n - 71)
  else if 48 ≤ n ∧ n ≤ 57 then some (n + 4)
  else if c = '+' then some 62
  else if c = '/' then some 63
  else none

/-- Reassemble bytes from 6-bit values: full quads give three bytes, a
final pair one byte, a final triple two bytes. -/
def b64Bytes : List Nat → List Nat
  | a :: b :: c :: d :: rest =>
    (a * 4 + b / 16) :: ((b % 16) * 16 + c / 4) :: ((c % 4) * 64 + d) ::
      b64Bytes rest
  | [a, b] => [a * 4 + b / 16]
  | [a, b, c] => [a * 4 + b / 16, (b % 16) * 16 + c / 4]
  | _ => []

/-- The scanning loop of non-strict `binascii.a2b_base64` (CPython):
`pads` counts padding characters since the last data character, `vs` the
data values so far (reversed).  A `=` is ignored while the current quad
has fewer than two data characters; once the quad's data plus padding
reach four, decoding finishes and the rest is discarded.  A leftover
partial quad at the end of input is `binascii.Error` (`none`). -/
def b64Run (pads : Nat) (vs : List Nat) : List Char → Option (List Nat)
  | [] => if vs.length % 4 = 0 then some vs.reverse else none
  | '=' :: rest =>
    if vs.length % 4 ≥ 2 then
      if vs.length % 4 + (pads + 1) ≥ 4 then some vs.reverse
      else b64Run (pads + 1) vs rest
    else b64Run pads vs rest
  | c :: rest =>
    match b64Val c with
    | some v => b64Run 0 (v :: vs) rest
    | none => b64Run pads vs rest

/-- Model of `base64.b64decode` (non-strict `binascii.a2b_base64`): junk
characters are discarded; padding finishes a two- or three-character
quad; an unterminated partial quad raises `binascii.Error` (`none`). -/
def b64Decode (s : String) : Option (List Nat) :=
  (b64Run 0 [] s.data).map b64Bytes

/-- Base64 digit character for a 6-bit value. -/
def b64EncChar (v : Nat) : Char :=
  if v < 26 then Char.ofNat (65 + v)
  else if v < 52 then Char.ofNat (71 + v)
  else if v < 62 then Char.ofNat (v - 4)
  else if v = 62 then '+'
  else '/'

/-- Standard padded base64 encoding of a byte string. -/
def b64Encode : List Nat → List Char
  | a :: b :: c :: rest =>
    b64EncChar (a / 4) :: b64EncChar ((a % 4) * 16 + b / 16) ::
      b64EncChar ((b % 16) * 4 + c / 64) :: b64EncChar (c % 64) ::
      b64Encode rest
  | [a, b] =>
    [b64EncChar (a / 4), b64EncChar ((a % 4) * 16 + b / 16),
     b64EncChar ((b % 16) * 4), '=']
  | [a] => [b64EncChar (a / 4), b64EncChar ((a % 4) * 16), '=', '=']
  | [] => []

/-- A valid UTF-8 continuation byte. -/
def utf8Cont (b : Nat) : Bool := 128 ≤ b ∧ b ≤ 191

/-- Decode one UTF-8 sequence off the front of a byte list, following
CPython's "maximal subpart" error handling: `(some cp, rest)` for a valid
sequence, `(none, rest)` when the consumed prefix is a maximal invalid
subpart replaced by one U+FFFD, resuming at `rest`.  At least one byte is
consumed from a non-empty input. -/
def utf8DecodeStep : List Nat → Option Nat × List Nat
  | [] => (none, [])
  | b :: rest =>
    if b < 128 then (some b, rest)
    else if b < 194 then (none, rest)
    else if b < 224 then
      match rest with
      | c1 :: r1 =>
        if utf8Cont c1 then (some ((b - 192) * 64 + (c1 - 128)), r1)
        else (none, rest)
      | [] => (none, [])
    else if b < 240 then
      let lo1 := if b = 224 then 160 else 128
      let hi1 := if b = 237 then 159 else 191
      match rest with
      | c1 :: r1 =>
        if lo1 ≤ c1 ∧ c1 ≤ hi1 then
          match r1 with
          | c2 :: r2 =>
            if utf8Cont c2 then
              (some ((b - 224) * 4096 + (c1 - 128) * 64 + (c2 - 128)), r2)
            else (none, r1)
          | [] => (none, [])
        else (none, rest)
      | [] => (none, [])
    else if b < 245 then
      let lo1 := if b = 240 then 144 else 128
      let hi1 := if b = 244 then 143 else 191
      match rest with
      | c1 :: r1 =>
        if lo1 ≤ c1 ∧ c1 ≤ hi1 then
          match r1 with
          | c2 :: r2 =>
            if utf8Cont c2 then
              match r2 with
              | c3 :: r3 =>
                if utf8Cont c3 then
                  (some ((b - 240) * 262144 + (c1 - 128) * 4096 +
                         (c2 - 128) * 64 + (c3 - 128)), r3)
                else (none, r2)
              | [] => (none, [])
            else (none, r1)
          | [] => (none, [])
        else (none, rest)
      | [] => (none, [])
    else (none, rest)

/-- Decode a UTF-8 byte list; in strict mode any error yields `none`
(Python `UnicodeDecodeError`), otherwise errors become U+FFFD.  Fuel is
the byte count, sufficient since every step consumes at least one byte. -/
def utf8DecodeAux (strict : Bool) : Nat → List Nat → Option (List Char)
  | _, [] => some []
  | 0, _ => some []
  | f + 1, bs =>
    let sr := utf8DecodeStep bs
    match sr.1 with
    | some n => (utf8DecodeAux strict f sr.2).map (fun cs => Char.ofNat n :: cs)
    | none =>
      if strict then none
      else (utf8DecodeAux strict f sr.2).map (fun cs => Char.ofNat 0xFFFD :: cs)

/-- Python `bytes.decode('utf-8', 'replace')`. -/
def utf8DecodeReplace (bs : List Nat) : String :=
  String.mk ((utf8DecodeAux false bs.length bs).getD [])

/-- Python `bytes.decode()` (strict UTF-8). -/
def utf8DecodeStrict (bs : List Nat) : Option String :=
  (utf8DecodeAux true bs.length bs).map String.mk

/-- Python `bytes.decode('ascii')`: fails on any byte at 128 or above. -/
def asciiDecode (bs : List Nat) : Option String :=
  if bs.all (· < 128) then some (String.mk (bs.map Char.ofNat)) else none

/-- Hexadecimal value of a character, either case. -/
def hexVal (c : Char) : Option Nat :=
  let n := c.toNat
  if 48 ≤ n ∧ n ≤ 57 then some (n - 48)
  else if 97 ≤ n ∧ n ≤ 102 then some (n - 87)
  else if 65 ≤ n ∧ n ≤ 70 then some (n - 55)
  else none

/-- Percent-decoding to bytes (`urllib.parse.unquote_to_bytes` on an ASCII
string): `%` followed by two hex digits becomes that byte, an invalid
escape stays literal. -/
def percentDecode : List Char → List Nat
  | '%' :: c1 :: c2 :: rest =>
    match hexVal c1, hexVal c2 with
    | some h, some l => (h * 16 + l) :: percentDecode rest
    | _, _ => 37 :: percentDecode (c1 :: c2 :: rest)
  | c :: rest => c.toNat :: percentDecode rest
  | [] => []

/-- Model of `urllib.parse.unquote` on an ASCII string (the gateway decodes
the query string as ASCII before unquoting): percent-escapes become bytes
and the byte string is decoded as UTF-8 with replacement. -/
def pyUnquote (s : String) : String :=
  utf8DecodeReplace (percentDecode s.data)

/-- A character allowed in a URL scheme (`urllib.parse.scheme_chars`). -/
def isSchemeChar (c : Char) : Bool :=
  c.isAlphanum ∨ c = '+' ∨ c = '-' ∨ c = '.'

/-- The `path` component of `urllib.parse.urlparse(url)`: strip a valid
scheme (alphabetic initial, scheme characters, before the first `:`),
strip a `//netloc` up to `/`, `?` or `#`, then cut at the first `?` or
`#`.  Modelled from CPython's `urlsplit`. -/
def urlparsePath (url : String) : String :=
  let cs := url.data
  let noScheme :=
    match cs.findIdx? (· = ':') with
    | some i =>
      if 0 < i then
        let sch := cs.take i
        match sch with
        | c0 :: _ =>
          if c0.isAlpha ∧ sch.all isSchemeChar then cs.drop (i + 1) else cs
        | [] => cs
      else cs
    | none => cs
  let noNetloc :=
    match noScheme with
    | '/' :: '/' :: rest =>
      rest.dropWhile (fun c => ¬(c = '/' ∨ c = '?' ∨ c = '#'))
    | other => other
  String.mk (noNetloc.takeWhile (fun c => ¬(c = '?' ∨ c = '#')))

/-- Python `p.rsplit('/', 1)[-1]`: everything after the last slash. -/
def lastPathSegment (p : String) : String :=
  String.mk (p.data.reverse.takeWhile (· ≠ '/')).reverse

/-- A byte that RFC 2047 "Q" header encoding leaves as itself
(`email.quoprimime`): letters, digits and `- ! * + /`. -/
def qpSafe (b : Nat) : Bool :=
  b = 45 ∨ b = 33 ∨ b = 42 ∨ b = 43 ∨ b = 47 ∨
  (48 ≤ b ∧ b ≤ 57) ∨ (65 ≤ b ∧ b ≤ 90) ∨ (97 ≤ b ∧ b ≤ 122)

/-- Encoded length of a byte string under "Q" header encoding
(`email.quoprimime.header_length`): safe bytes and space cost one
character, others three. -/
def qpHeaderLen (bs : List Nat) : Nat :=
  (bs.map (fun b => if b = 32 ∨ qpSafe b then 1 else 3)).sum

/-- Uppercase hexadecimal digit, as used by "Q" escapes. -/
def hexDigitUpper (n : Nat) : Char :=
  if n < 10 then Char.ofNat (48 + n) else Char.ofNat (55 + n)

/-- RFC 2047 "Q" header encoding of a byte string: space becomes `_`, safe
bytes stay, others become `=XX` with uppercase hex. -/
def qpHeaderEncode (bs : List Nat) : List Char :=
  (bs.map (fun b =>
    if b = 32 then ['_']
    else if qpSafe b then [Char.ofNat b]
    else ['=', hexDigitUpper (b / 16), hexDigitUpper (b % 16)])).flatten

/-- Encoded length of a byte string under base64 header encoding
(`email.base64mime.header_length`). -/
def b64HeaderLen (bs : List Nat) : Nat :=
  (bs.length + 2) / 3 * 4

/-- Length a list of characters would occupy inside one encoded word. -/
def encWordLen (useB64 : Bool) (cs : List Char) : Nat :=
  if useB64 then b64HeaderLen (utf8Encode (String.mk cs))
  else qpHeaderLen (utf8Encode (String.mk cs))

/-- One RFC 2047 encoded word `=?utf-8?b?...?=` or `=?utf-8?q?...?=`. -/
def encWord (useB64 : Bool) (cs : List Char) : String :=
  let bs := utf8Encode (String.mk cs)
  if useB64 then "=?utf-8?b?" ++ String.mk (b64Encode bs) ++ "?="
  else "=?utf-8?q?" ++ String.mk (qpHeaderEncode bs) ++ "?="

/-- Greedy split of the character stream into encoded-word lines
(`email.charset.Charset.header_encode_lines`): a character that would push
the current line's encoded length over the limit closes the line.  The
first line's payload budget is 66 (78-character lines minus 12 characters
of chrome); continuation lines get 65 (one column goes to the folding
space).  A single character always fits within these budgets, so the
empty-first-line corner of CPython is unreachable. -/
def headerSplit (useB64 : Bool) (cur : List Char) (maxlen : Nat) :
    List Char → List (List Char)
  | [] => [cur]
  | c :: cs =>
    if encWordLen useB64 (cur ++ [c]) > maxlen then
      cur :: headerSplit useB64 [c] 65 cs
    else headerSplit useB64 (cur ++ [c]) maxlen cs

/-- Model of `email.header.Header(s, "utf-8").encode()`: choose base64 or
"Q" encoding, whichever renders the whole string shorter ("Q" on ties),
split greedily into 78-column lines and fold with `"\n "`. -/
def headerEncodeStr (s : String) : String :=
  if s.data.isEmpty then "" else
  let bs := utf8Encode s
  let useB64 := b64HeaderLen bs < qpHeaderLen bs
  let lines := (headerSplit useB64 [] 66 s.data).map (encWord useB64)
  match lines with
  | [] => ""
  | l :: ls => l ++ String.join (ls.map (fun x => "\n " ++ x))

/-! ## The cache client (`kcidb/cache/__init__.py`)

The client's interactions with the origin server and with the
google-cloud-storage backend are mediated by explicit environments, and
every Python exception that can escape is an explicit outcome. -/

/-- An HTTP response as the `requests` library presents it: status code,
the header values the code reads (`requests` looks headers up
case-insensitively), the final URL after redirects, and the body bytes. -/
structure Response where
  status_code : Nat
  content_type : Option String
  content_length : Option String
  content_disposition : Option String
  url : String
  content : List Nat
deriving DecidableEq

/-- Result of one outbound `requests` call: a response, or a
`requests.exceptions.RequestException` transport failure (the only
exception class the `store` handler catches). -/
inductive HttpResult where
  | ok (r : Response)
  | exn
deriving DecidableEq

/-- The Python exceptions that can escape the modelled code. -/
inductive PyErr where
  | keyError
  | valueError
  | backendError
  | unicodeDecodeError
  | binasciiError
  | assertionError
deriving DecidableEq

/-- The outcome of a `store` call: normal return, or an escaping
exception. -/
inductive Outcome where
  | ret
  | raised (e : PyErr)
deriving DecidableEq

/-- The observable side effects of a `store` call, in order. -/
inductive Event where
  | existsCheck (objectName : String)
  | headReq (url : String)
  | getReq (url : String)
  | upload (objectName : String) (contents : List Nat)
      (contentType : String) (contentDisposition : String)
deriving DecidableEq

/-- Whether an event is an object write. -/
def Event.isUpload : Event → Bool
  | .upload _ _ _ _ => true
  | _ => false

/-- Whether an event is the outbound HEAD probe. -/
def Event.isHead : Event → Bool
  | .headReq _ => true
  | _ => false

/-- Whether an event is the outbound GET fetch. -/
def Event.isGet : Event → Bool
  | .getReq _ => true
  | _ => false

/-- Environment of one `store` call: whether the backend existence check
or the upload fails with a storage-backend error (escaping, since only
`RequestException` is caught), and what the origin answers to the HEAD
and GET probes. -/
structure StoreEnv where
  existsRaises : Bool
  head : HttpResult
  get : HttpResult
  uploadRaises : Bool

/-- The backing object store: which object names currently hold an
object. -/
def StoreState := String → Bool

/-- The cache client's constructor state (`Client.__init__`). -/
structure Client where
  bucket_name : String
  max_store_size : Int

/-- `Client._format_object_name`: the SHA-256 hex digest of the UTF-8
encoded URL is the object name. -/
def formatObjectName (url : String) : String :=
  sha256Hex (utf8Encode url)

/-- `Client._format_public_url`: the durable public address, a pure
function of the bucket name and the object name. -/
def Client.formatPublicUrl (c : Client) (url : String) : String :=
  "https://storage.googleapis.com/" ++ c.bucket_name ++ "/" ++
    formatObjectName url

/-- `Client._extract_content_disposition`: the response's own
`Content-Disposition` header if present, otherwise synthesized from the
last path segment of the response's (final) URL, MIME header-encoded;
a bare `attachment` when that segment is empty. -/
def extractContentDisposition (response : Response) : String :=
  match response.content_disposition with
  | some cd => cd
  | none =>
    let original_filename := lastPathSegment (urlparsePath response.url)
    if original_filename ≠ "" then
      "attachment; filename=\"" ++ headerEncodeStr original_filename ++ "\""
    else "attachment"

/-- `Client.store`: attempt to cache a URL.  Returns the outcome, the
ordered side effects, and the updated object store. -/
def Client.store (c : Client) (env : StoreEnv) (s : StoreState)
    (url : String) : Outcome × List Event × StoreState :=
  let object_name := formatObjectName url
  -- "Cache every 256th URL only for the trial period"
  if ¬ pyEndsWith object_name "00" then (.ret, [], s)
  else if env.existsRaises then
    (.raised .backendError, [.existsCheck object_name], s)
  else if s object_name then (.ret, [.existsCheck object_name], s)
  else
    let ev1 := [Event.existsCheck object_name, Event.headReq url]
    match env.head with
    | .exn => (.ret, ev1, s)
    | .ok response =>
      if response.status_code = 200 then
        match response.content_type with
        | none => (.raised .keyError, ev1, s)
        | some content_type =>
          match response.content_length with
          | none => (.ret, ev1, s)
          | some clStr =>
            match pyIntParse clStr with
            | none => (.raised .valueError, ev1, s)
            | some content_length =>
              if content_length > c.max_store_size then (.ret, ev1, s)
              else
                let ev2 := ev1 ++ [Event.getReq url]
                match env.get with
                | .exn => (.ret, ev2, s)
                | .ok gresp =>
                  if gresp.status_code = 200 then
                    if env.uploadRaises then (.raised .backendError, ev2, s)
                    else
                      (.ret,
                       ev2 ++ [.upload object_name gresp.content content_type
                                 (extractContentDisposition gresp)],
                       fun n => if n = object_name then true else s n)
                  else (.ret, ev2, s)
      else (.ret, ev1, s)

/-- A HEAD answer that avoids the uncaught-exception paths of `store`: any
transport error or non-200 status (swallowed), or a 200 response carrying
a Content-Type and, if it carries a Content-Length, a numeric one. -/
def benignHead : HttpResult → Bool
  | .exn => true
  | .ok r =>
    if r.status_code = 200 then
      r.content_type.isSome &&
        (match r.content_length with
         | none => true
         | some cl => (pyIntParse cl).isSome)
    else true

/-- An environment in which `store` takes none of its raising paths: the
backend existence check and upload succeed and the HEAD answer is benign.
Transport errors, non-200 statuses, missing or oversized content lengths
remain allowed — those are the swallowed failures. -/
def benignEnv (env : StoreEnv) : Bool :=
  !env.existsRaises && !env.uploadRaises && benignHead env.head

/-- A Python `datetime.timedelta`, as its total microseconds. -/
structure Timedelta where
  micros : Int
deriving DecidableEq

/-- The signing credential returned by `google.auth.default()`. -/
structure Credentials where
  token : Option String
  expired : Bool
  service_account_email : String
deriving DecidableEq

/-- A v4 signing request, exactly the arguments the code passes to
`blob.generate_signed_url`. -/
structure SignRequest where
  version : String
  method : String
  expiration : Timedelta
  service_account_email : String
  access_token : String
deriving DecidableEq

/-- Environment of one `map` call: whether the existence check fails with
a backend error, the credential the auth library hands out, the bearer
token a refresh would install, and the signed URL the storage library
produces for a given signing request. -/
structure MapEnv where
  existsRaises : Bool
  credentials : Credentials
  refreshedToken : String
  signedUrl : SignRequest → String

/-- Observable side effects of a `map` call. -/
inductive MapEvent where
  | existsCheck (objectName : String)
  | credRefresh
deriving DecidableEq

/-- `Client.map`: map a URL to the public address of its cached contents.
Returns the result (or escaping error) and the ordered side effects. -/
def Client.map (c : Client) (env : MapEnv) (s : StoreState) (url : String)
    (ttl : Option Timedelta) : Except PyErr (Option String) × List MapEvent :=
  let object_name := formatObjectName url
  if env.existsRaises then (.error .backendError, [.existsCheck object_name])
  else if s object_name then
    match ttl with
    | none =>
      (.ok (some (c.formatPublicUrl url)), [.existsCheck object_name])
    | some t =>
      match env.credentials.token with
      | none =>
        (.ok (some (env.signedUrl
            ⟨"v4", "GET", t, env.credentials.service_account_email,
             env.refreshedToken⟩)),
         [.existsCheck object_name, .credRefresh])
      | some tok =>
        (.ok (some (env.signedUrl
            ⟨"v4", "GET", t, env.credentials.service_account_email, tok⟩)),
         [.existsCheck object_name])
  else (.ok none, [.existsCheck object_name])

/-- A dynamically-typed Python value, for modelling the `isinstance`
assertions at the top of `map`. -/
inductive PyVal where
  | pyStr (s : String)
  | pyNone
  | pyTd (t : Timedelta)
  | pyInt (n : Int)
deriving DecidableEq

/-- `Client.map` on dynamically-typed arguments, including its leading
`assert isinstance(url, str)` and
`assert ttl is None or isinstance(ttl, datetime.timedelta)`, which both
run before any storage access. -/
def Client.mapChecked (c : Client) (env : MapEnv) (s : StoreState)
    (url ttl : PyVal) : Except PyErr (Option String) × List MapEvent :=
  match url with
  | .pyStr u =>
    match ttl with
    | .pyNone => c.map env s u none
    | .pyTd t => c.map env s u (some t)
    | _ => (.error .assertionError, [])
  | _ => (.error .assertionError, [])

/-! ## The Cloud Function entry points (`main.py`) -/

/-- `CACHE_REDIRECT_TTL = datetime.timedelta(seconds=10)`. -/
def CACHE_REDIRECT_TTL : Timedelta := ⟨10000000⟩

/-- An incoming HTTP request: its method and raw query-string bytes. -/
structure HttpRequest where
  method : String
  query_string : List Nat

/-- The response triple `(body, status, headers)` a Cloud Function
returns. -/
structure HttpResponse where
  body : String
  status : Nat
  headers : List (String × String)
deriving DecidableEq

/-- `kcidb_cache_redirect`: the redirect gateway.  An escaping exception
(`.error`) models the request failing with an internal server error
instead of one of the enumerated responses. -/
def kcidb_cache_redirect (c : Client) (env : MapEnv) (s : StoreState)
    (request : HttpRequest) : Except PyErr HttpResponse :=
  if request.method = "GET" then
    match asciiDecode request.query_string with
    | none => .error .unicodeDecodeError
    | some qs =>
      let url_to_fetch := pyUnquote qs
      if url_to_fetch = "" then
        .ok ⟨"Provide a valid URL to query from the caching system.", 400, []⟩
      else
        match (c.map env s url_to_fetch (some CACHE_REDIRECT_TTL)).1 with
        | .error e => .error e
        | .ok cache =>
          -- Python `if cache:`: both None and an empty string are falsy
          match cache with
          | some addr =>
            if addr ≠ "" then .ok ⟨"", 302, [("Location", addr)]⟩
            else .ok ⟨"", 302, [("Location", url_to_fetch)]⟩
          | none => .ok ⟨"", 302, [("Location", url_to_fetch)]⟩
  else .ok ⟨"Method not allowed.", 405, [("Allow", "GET")]⟩

/-- The per-line loop of `kcidb_cache_urls`: call `store` on each line in
order, stopping early only when a call raises.  Returns the overall
outcome, the URLs `store` was invoked on in order, and the final store
state.  The `i`-th call runs in environment `envs i`. -/
def storeBatch (c : Client) (envs : Nat → StoreEnv) :
    Nat → StoreState → List String →
    Except PyErr Unit × List String × StoreState
  | _, s, [] => (.ok (), [], s)
  | i, s, url :: rest =>
    let r := c.store (envs i) s url
    match r.1 with
    | .raised e => (.error e, [url], r.2.2)
    | .ret =>
      let res := storeBatch c envs (i + 1) r.2.2 rest
      (res.1, url :: res.2.1, res.2.2)

/-- `kcidb_cache_urls`: the ingestion entry point.  Base64-decode the
Pub/Sub payload, UTF-8 decode it, split it into lines, and store each
line. -/
def kcidb_cache_urls (c : Client) (envs : Nat → StoreEnv) (s : StoreState)
    (eventData : String) : Except PyErr Unit × List String × StoreState :=
  match b64Decode eventData with
  | none => (.error .binasciiError, [], s)
  | some bytes =>
    match utf8DecodeStrict bytes with
    | none => (.error .unicodeDecodeError, [], s)
    | some pubsub_message =>
      storeBatch c envs 0 s (pySplitlines pubsub_message)

/-! ## Sample values for concrete witnesses

`sampleUrl`'s SHA-256 hex digest ends in `00`, so it is sampled for
caching; the client uses the 5 MiB bound `main.py` configures. -/

/-- A sample client, with the 5 MiB bound from `get_cache_client`. -/
def sampleClient : Client := ⟨"kcidb-cache", 5242880⟩

/-- A sample URL whose CacheKey ends in the sampling sentinel `00`. -/
def sampleUrl : String := "https://example.com/f35"

/-- A successful HEAD response for `sampleUrl`. -/
def sampleHead : Response :=
  ⟨200, some "text/plain", some "4", none, "https://example.com/f35", []⟩

/-- A successful GET response for `sampleUrl`, without a
Content-Disposition header. -/
def sampleGet : Response :=
  ⟨200, none, none, none, "https://example.com/f35", [1, 2, 3, 4]⟩

/-- An environment in which `store` fully succeeds. -/
def sampleEnvOk : StoreEnv := ⟨false, .ok sampleHead, .ok sampleGet, false⟩

/-- An environment whose origin is unreachable (a swallowed transport
error). -/
def sampleEnvExn : StoreEnv := ⟨false, .exn, .exn, false⟩

/-- The empty backing store. -/
def emptyStore : StoreState := fun _ => false

/-! ## Helper lemmas -/

theorem sha256Round_length (st : List Nat) (kw : Nat × Nat) :
    (sha256Round st kw).length = st.length := by
  unfold sha256Round
  rcases st with _ | ⟨a, _ | ⟨b, _ | ⟨c, _ | ⟨d, _ | ⟨e, _ | ⟨f, _ | ⟨g, _ | ⟨h, _ | ⟨i, t⟩⟩⟩⟩⟩⟩⟩⟩⟩ <;> rfl

theorem foldl_sha256Round_length (l : List (Nat × Nat)) (st : List Nat) :
    (l.foldl sha256Round st).length = st.length := by
  induction l generalizing st with
  | nil => rfl
  | cons kw l ih =>
    rw [List.foldl_cons, ih (sha256Round st kw), sha256Round_length]

theorem sha256Compress_length (hv chunk : List Nat) :
    (sha256Compress hv chunk).length = hv.length := by
  unfold sha256Compress
  simp [List.length_zipWith, foldl_sha256Round_length]

theorem sha256Fold_length (fuel : Nat) (hv bs : List Nat) :
    (sha256Fold fuel hv bs).length = hv.length := by
  induction fuel generalizing hv bs with
  | zero => cases bs <;> rfl
  | succ f ih =>
    cases bs with
    | nil => rfl
    | cons b t =>
      have h : sha256Fold (f + 1) hv (b :: t) =
          sha256Fold f (sha256Compress hv ((b :: t).take 64)) ((b :: t).drop 64) := rfl
      rw [h, ih, sha256Compress_length]

theorem length_flatten_quads (l : List Nat) :
    ((l.map (fun word =>
      [word >>> 24 % 256, word >>> 16 % 256, word >>> 8 % 256, word % 256])).flatten).length
      = 4 * l.length := by
  induction l with
  | nil => rfl
  | cons a t ih => simp [ih]; omega

theorem sha256Bytes_length (msg : List Nat) : (sha256Bytes msg).length = 32 := by
  unfold sha256Bytes
  rw [length_flatten_quads, sha256Fold_length]
  rfl

/-- A two-character string is a suffix of a list ending in two characters
exactly when those final characters match. -/
theorem isSuffixOf_concat_pair (A : List Char) (x y : Char) :
    (['0', '0'].isSuffixOf (A ++ [x, y]) = true) ↔ x = '0' ∧ y = '0' := by
  have h1 : ['0', '0'].isSuffixOf (A ++ [x, y]) =
      ((('0' : Char) == y) && ((('0' : Char) == x) &&
        List.isPrefixOf [] A.reverse)) := by
    show List.isPrefixOf ['0', '0'].reverse (A ++ [x, y]).reverse = _
    rw [show (A ++ [x, y]).reverse = y :: x :: A.reverse by simp]
    rfl
  have h2 : List.isPrefixOf ([] : List Char) A.reverse = true := by
    cases A.reverse <;> rfl
  rw [h1, h2]
  simp only [Bool.and_true, Bool.and_eq_true, beq_iff_eq]
  exact ⟨fun h => ⟨h.2.symm, h.1.symm⟩, fun h => ⟨h.2.symm, h.1.symm⟩⟩

/-- An unsampled URL is skipped outright: no events, no state change. -/
theorem store_not_sampled (c : Client) (env : StoreEnv) (s : StoreState)
    (url : String) (h : pyEndsWith (formatObjectName url) "00" = false) :
    c.store env s url = (.ret, [], s) := by
  simp [Client.store, h]

/-- A sampled, already-cached URL short-circuits on the existence check. -/
theorem store_already_cached (c : Client) (env : StoreEnv) (s : StoreState)
    (url : String)
    (hs : pyEndsWith (formatObjectName url) "00" = true)
    (her : env.existsRaises = false)
    (hc : s (formatObjectName url) = true) :
    c.store env s url = (.ret, [.existsCheck (formatObjectName url)], s) := by
  simp [Client.store, hs, her, hc]

/-- Exhaustive case analysis of `store`: every reachable branch of the
translated control flow, with the exact result in each. -/
theorem store_cases (c : Client) (env : StoreEnv) (s : StoreState)
    (url : String) :
    (pyEndsWith (formatObjectName url) "00" = false ∧
      c.store env s url = (.ret, [], s)) ∨
    (pyEndsWith (formatObjectName url) "00" = true ∧
      env.existsRaises = true ∧
      c.store env s url =
        (.raised .backendError, [.existsCheck (formatObjectName url)], s)) ∨
    (pyEndsWith (formatObjectName url) "00" = true ∧
      env.existsRaises = false ∧ s (formatObjectName url) = true ∧
      c.store env s url = (.ret, [.existsCheck (formatObjectName url)], s)) ∨
    (pyEndsWith (formatObjectName url) "00" = true ∧
      env.existsRaises = false ∧ s (formatObjectName url) = false ∧
      ((env.head = .exn ∧ c.store env s url =
          (.ret, [.existsCheck (formatObjectName url), .headReq url], s)) ∨
       (∃ r, env.head = .ok r ∧
         ((r.status_code ≠ 200 ∧ c.store env s url =
             (.ret, [.existsCheck (formatObjectName url), .headReq url], s)) ∨
          (r.status_code = 200 ∧
            ((r.content_type = none ∧ c.store env s url =
                (.raised .keyError,
                 [.existsCheck (formatObjectName url), .headReq url], s)) ∨
             (∃ ct, r.content_type = some ct ∧
               ((r.content_length = none ∧ c.store env s url =
                   (.ret,
                    [.existsCheck (formatObjectName url), .headReq url], s)) ∨
                (∃ cl, r.content_length = some cl ∧
                  ((pyIntParse cl = none ∧ c.store env s url =
                      (.raised .valueError,
                       [.existsCheck (formatObjectName url), .headReq url],
                       s)) ∨
                   (∃ n, pyIntParse cl = some n ∧
                     ((n > c.max_store_size ∧ c.store env s url =
                         (.ret,
                          [.existsCheck (formatObjectName url), .headReq url],
                          s)) ∨
                      (¬ n > c.max_store_size ∧
                        ((env.get = .exn ∧ c.store env s url =
                            (.ret,
                             [.existsCheck (formatObjectName url),
                              .headReq url, .getReq url], s)) ∨
                         (∃ g, env.get = .ok g ∧
                           ((g.status_code ≠ 200 ∧ c.store env s url =
                               (.ret,
                                [.existsCheck (formatObjectName url),
                                 .headReq url, .getReq url], s)) ∨
                            (g.status_code = 200 ∧ env.uploadRaises = true ∧
                              c.store env s url =
                                (.raised .backendError,
                                 [.existsCheck (formatObjectName url),
                                  .headReq url, .getReq url], s)) ∨
                            (g.status_code = 200 ∧ env.uploadRaises = false ∧
                              c.store env s url =
                                (.ret,
                                 [.existsCheck (formatObjectName url),
                                  .headReq url, .getReq url,
                                  .upload (formatObjectName url) g.content ct
                                    (extractContentDisposition g)],
                                 fun m =>
                                   if m = formatObjectName url then true
                                   else s m)))))))))))))))))) := by
  by_cases hs : pyEndsWith (formatObjectName url) "00" = true
  case neg =>
    replace hs : pyEndsWith (formatObjectName url) "00" = false := by
      simpa using hs
    exact Or.inl ⟨hs, store_not_sampled c env s url hs⟩
  refine Or.inr ?_
  cases her : env.existsRaises with
  | true => exact Or.inl ⟨hs, rfl, by simp [Client.store, hs, her]⟩
  | false =>
  refine Or.inr ?_
  cases hc : s (formatObjectName url) with
  | true => exact Or.inl ⟨hs, rfl, rfl, store_already_cached c env s url hs her hc⟩
  | false =>
  refine Or.inr ⟨hs, rfl, rfl, ?_⟩
  cases hh : env.head with
  | exn => exact Or.inl ⟨rfl, by simp [Client.store, hs, her, hc, hh]⟩
  | ok r =>
  refine Or.inr ⟨r, rfl, ?_⟩
  by_cases h200 : r.status_code = 200
  case neg =>
    exact Or.inl ⟨h200, by simp [Client.store, hs, her, hc, hh, h200]⟩
  refine Or.inr ⟨h200, ?_⟩
  cases hct : r.content_type with
  | none => exact Or.inl ⟨rfl, by simp [Client.store, hs, her, hc, hh, h200, hct]⟩
  | some ct =>
  refine Or.inr ⟨ct, rfl, ?_⟩
  cases hcl : r.content_length with
  | none =>
    exact Or.inl ⟨rfl, by simp [Client.store, hs, her, hc, hh, h200, hct, hcl]⟩
  | some cl =>
  refine Or.inr ⟨cl, rfl, ?_⟩
  cases hp : pyIntParse cl with
  | none =>
    exact Or.inl ⟨rfl, by simp [Client.store, hs, her, hc, hh, h200, hct, hcl, hp]⟩
  | some n =>
  refine Or.inr ⟨n, rfl, ?_⟩
  by_cases hsz : n > c.max_store_size
  case pos =>
    exact Or.inl ⟨hsz, by simp [Client.store, hs, her, hc, hh, h200, hct, hcl, hp, hsz]⟩
  refine Or.inr ⟨hsz, ?_⟩
  cases hg : env.get with
  | exn =>
    exact Or.inl ⟨rfl, by simp [Client.store, hs, her, hc, hh, h200, hct, hcl, hp, hsz, hg]⟩
  | ok g =>
  refine Or.inr ⟨g, rfl, ?_⟩
  by_cases hg2 : g.status_code = 200
  case neg =>
    exact Or.inl ⟨hg2, by simp [Client.store, hs, her, hc, hh, h200, hct, hcl, hp, hsz, hg, hg2]⟩
  cases hur : env.uploadRaises with
  | true =>
    exact Or.inr (Or.inl ⟨hg2, rfl,
      by simp [Client.store, hs, her, hc, hh, h200, hct, hcl, hp, hsz, hg, hg2, hur]⟩)
  | false =>
    exact Or.inr (Or.inr ⟨hg2, rfl,
      by simp [Client.store, hs, her, hc, hh, h200, hct, hcl, hp, hsz, hg, hg2, hur]⟩)

/-- When a `store` call performs an object write, the call was the full
successful path: sampled URL, 200 HEAD with a Content-Type, 200 GET, and
the result is exactly one upload of the GET body under the derived key,
with the store state gaining that key. -/
theorem store_upload_result (c : Client) (env : StoreEnv) (s : StoreState)
    (url : String)
    (hany : (c.store env s url).2.1.any Event.isUpload = true) :
    pyEndsWith (formatObjectName url) "00" = true ∧
    ∃ r g ct, env.head = .ok r ∧ r.status_code = 200 ∧
      r.content_type = some ct ∧ env.get = .ok g ∧ g.status_code = 200 ∧
      c.store env s url = (.ret,
        [.existsCheck (formatObjectName url), .headReq url, .getReq url,
         .upload (formatObjectName url) g.content ct
           (extractContentDisposition g)],
        fun m => if m = formatObjectName url then true else s m) := by
  rcases store_cases c env s url with
    ⟨-, hst⟩ | ⟨-, -, hst⟩ | ⟨-, -, -, hst⟩ |
    ⟨hs, -, -,
      ⟨-, hst⟩ |
      ⟨r, hh, ⟨-, hst⟩ |
        ⟨h200, ⟨-, hst⟩ |
          ⟨ct, hct, ⟨-, hst⟩ |
            ⟨cl, -, ⟨-, hst⟩ |
              ⟨n, -, ⟨-, hst⟩ |
                ⟨-, ⟨-, hst⟩ |
                  ⟨g, hg, ⟨-, hst⟩ | ⟨-, -, hst⟩ | ⟨hg2, -, hst⟩⟩⟩⟩⟩⟩⟩⟩⟩
  · rw [hst] at hany; simp [Event.isUpload] at hany
  · rw [hst] at hany; simp [Event.isUpload] at hany
  · rw [hst] at hany; simp [Event.isUpload] at hany
  · rw [hst] at hany; simp [Event.isUpload] at hany
  · rw [hst] at hany; simp [Event.isUpload] at hany
  · rw [hst] at hany; simp [Event.isUpload] at hany
  · rw [hst] at hany; simp [Event.isUpload] at hany
  · rw [hst] at hany; simp [Event.isUpload] at hany
  · rw [hst] at hany; simp [Event.isUpload] at hany
  · rw [hst] at hany; simp [Event.isUpload] at hany
  · rw [hst] at hany; simp [Event.isUpload] at hany
  · rw [hst] at hany; simp [Event.isUpload] at hany
  · exact ⟨hs, r, g, ct, hh, h200, hct, hg, hg2, hst⟩

/-- In a benign environment `store` returns normally: the only raising
paths are a backend failure of the existence check or upload, a 200 HEAD
without Content-Type, and a non-numeric Content-Length. -/
theorem store_benign_ret (c : Client) (env : StoreEnv)
    (s : StoreState) (url : String) (h : benignEnv env = true) :
    (c.store env s url).1 = .ret := by
  have hb := h
  simp only [benignEnv, Bool.and_eq_true, Bool.not_eq_true'] at hb
  obtain ⟨⟨her, hur⟩, hbh⟩ := hb
  rcases store_cases c env s url with
    ⟨-, hst⟩ | ⟨-, her2, -⟩ | ⟨-, -, -, hst⟩ |
    ⟨-, -, -,
      ⟨-, hst⟩ |
      ⟨r, hh, ⟨-, hst⟩ |
        ⟨h200, ⟨hct, -⟩ |
          ⟨ct, hct, ⟨-, hst⟩ |
            ⟨cl, hcl, ⟨hp, -⟩ |
              ⟨n, hp, ⟨-, hst⟩ |
                ⟨-, ⟨-, hst⟩ |
                  ⟨g, hg, ⟨-, hst⟩ | ⟨-, hur2, -⟩ | ⟨-, -, hst⟩⟩⟩⟩⟩⟩⟩⟩⟩
  · rw [hst]
  · simp [her] at her2
  · rw [hst]
  · rw [hst]
  · rw [hst]
  · rw [hh] at hbh
    simp [benignHead, h200, hct] at hbh
  · rw [hst]
  · rw [hh] at hbh
    simp [benignHead, h200, hct, hcl, hp] at hbh
  · rw [hst]
  · rw [hst]
  · rw [hst]
  · simp [hur] at hur2
  · rw [hst]

/-! ## Model validation

Anchors tying the executable models to known reference values: FIPS
SHA-256 test vectors and CPython behaviours. -/

theorem sha256_vector_abc :
    sha256Hex (utf8Encode "abc") =
      "ba7816bf8f01cfea414140de5dae2223b00361a396177a9cb410ff61f20015ad" := by
  decide

theorem sha256_vector_empty :
    sha256Hex (utf8Encode "") =
      "e3b0c44298fc1c149afbf4c8996fb92427ae41e4649b934ca495991b7852b855" := by
  decide

theorem pyIntParse_vectors :
    pyIntParse " 42 " = some 42 ∧ pyIntParse "-5" = some (-5) ∧
    pyIntParse "1_000" = some 1000 ∧ pyIntParse "" = none ∧
    pyIntParse "12.5" = none ∧ pyIntParse "0x10" = none := by
  decide

theorem pySplitlines_vectors :
    pySplitlines "a\n\nb\rc\r\nd" = ["a", "", "b", "c", "d"] ∧
    pySplitlines "" = [] ∧ pySplitlines "a\n" = ["a"] := by
  decide

theorem b64Decode_vectors :
    b64Decode "dTcKdTg=" = some [117, 55, 10, 117, 56] ∧
    b64Decode "YWJjZA" = none ∧ b64Decode "Y Q=  =" = some [97] ∧
    b64Decode "Y" = none ∧
    b64Decode "YW=JjZA==" = some [97, 98, 99, 100] ∧
    b64Decode "=YWJj" = some [97, 98, 99] ∧
    b64Decode "YQ=X" = none := by
  decide

theorem pyUnquote_vectors :
    pyUnquote "a%C3%A9b" = "aéb" ∧ pyUnquote "%41%%4" = "A%%4" ∧
    pyUnquote "" = "" := by
  decide

theorem urlparse_vectors :
    urlparsePath "https://x.com/a/b.txt?q=1#f" = "/a/b.txt" ∧
    urlparsePath "http://host" = "" ∧
    lastPathSegment "/a/b.txt" = "b.txt" ∧ lastPathSegment "dir/" = "" := by
  decide

theorem headerEncode_vectors :
    headerEncodeStr "test.txt" = "=?utf-8?q?test=2Etxt?=" ∧
    headerEncodeStr "a b" = "=?utf-8?q?a_b?=" ∧
    headerEncodeStr "abcé" = "=?utf-8?b?YWJjw6k=?=" ∧
    headerEncodeStr "naïve file (1).txt" =
      "=?utf-8?b?bmHDr3ZlIGZpbGUgKDEpLnR4dA==?=" := by
  decide

/-! ## Claims -/

/-- C2: `store` applies the sampling policy before anything else: a URL is
eligible exactly when the last byte of its CacheKey (the SHA-256 digest of
the UTF-8 URL), rendered as two hexadecimal characters, equals the fixed
sentinel `00`; a URL failing the test is skipped with no network access
performed and no object written. -/
theorem store_sampling_policy (c : Client) (env : StoreEnv)
    (s : StoreState) (url : String) :
    (pyEndsWith (formatObjectName url) "00" = true ↔
      byteToHex ((sha256Bytes (utf8Encode url)).getLastD 0) = ['0', '0']) ∧
    (pyEndsWith (formatObjectName url) "00" = false →
      c.store env s url = (.ret, [], s)) := by
  refine ⟨?_, store_not_sampled c env s url⟩
  have hlen := sha256Bytes_length (utf8Encode url)
  rcases List.eq_nil_or_concat (sha256Bytes (utf8Encode url)) with hnil | ⟨L, b, hLb⟩
  · rw [hnil] at hlen
    simp at hlen
  · have h00 : "00".data = ['0', '0'] := rfl
    have hform : pyEndsWith (formatObjectName url) "00"
        = ['0', '0'].isSuffixOf ((L.map byteToHex).flatten ++
            [hexDigit (b / 16), hexDigit (b % 16)]) := by
      simp only [pyEndsWith, h00, formatObjectName, sha256Hex, hLb, bytesToHex]
      simp [byteToHex]
    rw [hform, hLb, List.concat_eq_append, List.getLastD_concat,
      isSuffixOf_concat_pair]
    simp [byteToHex]

/-- C2 witness: an unsampled URL (digest ends in `59`) is skipped with no
events and no state change. -/
theorem store_sampling_policy_witness :
    pyEndsWith (formatObjectName "https://example.com/f0") "00" = false ∧
    Client.store ⟨"kcidb-cache", 5242880⟩ ⟨false, .exn, .exn, false⟩
      (fun _ => false) "https://example.com/f0" = (.ret, [], fun _ => false) :=
  ⟨by decide,
   (store_sampling_policy ⟨"kcidb-cache", 5242880⟩ ⟨false, .exn, .exn, false⟩
     (fun _ => false) "https://example.com/f0").2 (by decide)⟩

/-- C1 counterexample: a 200 HEAD response that lacks a Content-Type
header makes `store` raise `KeyError` to its caller (the bare
`response.headers["Content-Type"]` subscript is outside the
`except requests.exceptions.RequestException` handler), so `store` does
not return normally on every origin behaviour. -/
theorem store_error_containment_cex :
    (Client.store ⟨"kcidb-cache", 5242880⟩
      ⟨false, .ok ⟨200, none, some "4", none, "https://example.com/f35", []⟩,
       .exn, false⟩
      (fun _ => false) "https://example.com/f35").1 = .raised .keyError := by
  decide

/-- C1 (amended): `store` returns normally — all failures logged and
swallowed — whenever the backend existence check and upload succeed and
any 200 HEAD response carries a Content-Type and a numeric (or absent)
Content-Length; transport errors, non-200 statuses, missing and oversized
lengths never escape.  (A 200 HEAD without Content-Type raises `KeyError`,
a non-numeric Content-Length raises `ValueError`, and storage-backend
errors propagate.) -/
theorem store_error_containment (c : Client) (env : StoreEnv)
    (s : StoreState) (url : String) (h : benignEnv env = true) :
    (c.store env s url).1 = .ret :=
  store_benign_ret c env s url h

/-- C1 witness: with a benign environment (here: an oversized
Content-Length, one of the swallowed failures), `store` returns
normally. -/
theorem store_error_containment_witness :
    benignEnv ⟨false,
      .ok ⟨200, some "text/plain", some "99999999999", none,
           "https://example.com/f35", []⟩, .exn, false⟩ = true ∧
    (Client.store ⟨"kcidb-cache", 5242880⟩
      ⟨false,
       .ok ⟨200, some "text/plain", some "99999999999", none,
            "https://example.com/f35", []⟩, .exn, false⟩
      (fun _ => false) "https://example.com/f35").1 = .ret :=
  ⟨by decide,
   store_error_containment ⟨"kcidb-cache", 5242880⟩ _ (fun _ => false)
     "https://example.com/f35" (by decide)⟩

/-- C4: for a sampled, not-yet-cached URL whose HEAD probe returns 200, a
missing Content-Length or a Content-Length exceeding `max_store_size`
aborts the store: no GET request is issued, no object is written, and the
backing store is unchanged. -/
theorem store_size_bound (c : Client) (env : StoreEnv) (s : StoreState)
    (url : String) (r : Response)
    (hs : pyEndsWith (formatObjectName url) "00" = true)
    (her : env.existsRaises = false)
    (hc : s (formatObjectName url) = false)
    (hh : env.head = .ok r) (h200 : r.status_code = 200)
    (hcl : r.content_length = none ∨
      ∃ cl n, r.content_length = some cl ∧ pyIntParse cl = some n ∧
        n > c.max_store_size) :
    ((c.store env s url).2.1.all (fun e => !e.isGet && !e.isUpload) = true) ∧
    (c.store env s url).2.2 = s := by
  rcases hcl with hcln | ⟨cl, n, hcl, hp, hgt⟩
  · cases hct : r.content_type <;>
      simp [Client.store, hs, her, hc, hh, h200, hcln, hct,
        Event.isGet, Event.isUpload]
  · cases hct : r.content_type <;>
      simp [Client.store, hs, her, hc, hh, h200, hcl, hp, hgt, hct,
        Event.isGet, Event.isUpload]

/-- C4 witness: a sampled URL with an 11-digit Content-Length (far above
the configured 5 MiB bound) is probed but never fetched or stored. -/
theorem store_size_bound_witness :
    pyEndsWith (formatObjectName "https://example.com/f35") "00" = true ∧
    (((Client.store ⟨"kcidb-cache", 5242880⟩
       ⟨false,
        .ok ⟨200, some "text/plain", some "99999999999", none,
             "https://example.com/f35", []⟩, .exn, false⟩
       (fun _ => false) "https://example.com/f35").2.1.all
        (fun e => !e.isGet && !e.isUpload) = true) ∧
     (Client.store ⟨"kcidb-cache", 5242880⟩
       ⟨false,
        .ok ⟨200, some "text/plain", some "99999999999", none,
             "https://example.com/f35", []⟩, .exn, false⟩
       (fun _ => false) "https://example.com/f35").2.2 = (fun _ => false)) :=
  ⟨by decide,
   store_size_bound ⟨"kcidb-cache", 5242880⟩ _ (fun _ => false)
     "https://example.com/f35"
     ⟨200, some "text/plain", some "99999999999", none,
      "https://example.com/f35", []⟩
     (by decide) rfl rfl rfl rfl
     (Or.inr ⟨"99999999999", 99999999999, rfl, by decide, by decide⟩)⟩

/-- C5: `store` is idempotent with respect to the existence check: an
already-cached URL is a no-op (no HEAD, no GET, no write, store state
unchanged), and when a first call writes an object, that call performs
exactly one write and a second call in succession short-circuits on the
existence check, performing none. -/
theorem store_idempotent (c : Client) (env1 env2 : StoreEnv)
    (s : StoreState) (url : String) :
    (env1.existsRaises = false → s (formatObjectName url) = true →
      (c.store env1 s url).1 = .ret ∧
      ((c.store env1 s url).2.1.all
        (fun e => !e.isHead && !e.isGet && !e.isUpload) = true) ∧
      (c.store env1 s url).2.2 = s) ∧
    ((c.store env1 s url).2.1.any Event.isUpload = true →
      env2.existsRaises = false →
      ((c.store env1 s url).2.1.filter Event.isUpload).length = 1 ∧
      (c.store env2 (c.store env1 s url).2.2 url).2.1 =
        [.existsCheck (formatObjectName url)] ∧
      ((c.store env2 (c.store env1 s url).2.2 url).2.1.filter
        Event.isUpload).length = 0) := by
  constructor
  · intro her hc
    by_cases hs : pyEndsWith (formatObjectName url) "00" = true
    · rw [store_already_cached c env1 s url hs her hc]
      simp [Event.isHead, Event.isGet, Event.isUpload]
    · rw [store_not_sampled c env1 s url (by simpa using hs)]
      simp
  · intro hany hex2
    obtain ⟨hs, r, g, ct, -, -, -, -, -, hst⟩ :=
      store_upload_result c env1 s url hany
    rw [hst]
    dsimp only
    refine ⟨by simp [Event.isUpload], ?_, ?_⟩
    · rw [store_already_cached c env2 _ url hs hex2 (by simp)]
    · rw [store_already_cached c env2 _ url hs hex2 (by simp)]
      simp [Event.isUpload]

/-- C5 witness: a fully successful first store writes exactly once; an
immediate second call performs only the existence check and writes
nothing; and a store call on an already-cached URL leaves the state
untouched with no network events. -/
theorem store_idempotent_witness :
    ((sampleClient.store sampleEnvOk emptyStore sampleUrl).2.1.any
      Event.isUpload = true) ∧
    ((sampleClient.store sampleEnvOk emptyStore sampleUrl).2.1.filter
      Event.isUpload).length = 1 ∧
    (sampleClient.store sampleEnvExn
      (sampleClient.store sampleEnvOk emptyStore sampleUrl).2.2
      sampleUrl).2.1 = [.existsCheck (formatObjectName sampleUrl)] ∧
    ((sampleClient.store sampleEnvExn
      (sampleClient.store sampleEnvOk emptyStore sampleUrl).2.2
      sampleUrl).2.1.filter Event.isUpload).length = 0 ∧
    (sampleClient.store sampleEnvExn (fun _ => true) sampleUrl).2.2 =
      (fun _ => true) :=
  ⟨by decide,
   ((store_idempotent sampleClient sampleEnvOk sampleEnvExn emptyStore
      sampleUrl).2 (by decide) rfl).1,
   ((store_idempotent sampleClient sampleEnvOk sampleEnvExn emptyStore
      sampleUrl).2 (by decide) rfl).2.1,
   ((store_idempotent sampleClient sampleEnvOk sampleEnvExn emptyStore
      sampleUrl).2 (by decide) rfl).2.2,
   ((store_idempotent sampleClient sampleEnvExn sampleEnvExn
      (fun _ => true) sampleUrl).1 rfl rfl).2.2⟩

/-- C9: whenever `store` persists an object, the stored
content-disposition label equals the GET response's own
Content-Disposition header when present; otherwise it is
`attachment; filename="<name>"` with `<name>` the MIME header-encoded
last path segment of the response's URL when non-empty, and the bare
string `attachment` when that segment is empty. -/
theorem store_content_disposition_rule (c : Client) (env : StoreEnv)
    (s : StoreState) (url obj ct cd : String) (contents : List Nat)
    (h : Event.upload obj contents ct cd ∈ (c.store env s url).2.1) :
    ∃ g, env.get = .ok g ∧ g.status_code = 200 ∧ contents = g.content ∧
      cd = (match g.content_disposition with
            | some d => d
            | none =>
              if lastPathSegment (urlparsePath g.url) ≠ "" then
                "attachment; filename=\"" ++
                  headerEncodeStr (lastPathSegment (urlparsePath g.url)) ++
                  "\""
              else "attachment") := by
  have hany : (c.store env s url).2.1.any Event.isUpload = true :=
    List.any_eq_true.mpr ⟨_, h, rfl⟩
  obtain ⟨-, r, g, ct2, -, -, -, hg, hg2, hst⟩ :=
    store_upload_result c env s url hany
  rw [hst] at h
  simp only [List.mem_cons, List.not_mem_nil, or_false] at h
  rcases h with h | h | h | h
  · exact absurd h (by simp)
  · exact absurd h (by simp)
  · exact absurd h (by simp)
  · obtain ⟨-, h2, -, h4⟩ := Event.upload.inj h
    refine ⟨g, hg, hg2, h2, ?_⟩
    rw [h4]
    rfl

/-- C9 witness: a GET response with no Content-Disposition header and
final URL path `/f35` yields the synthesized label with the
MIME-encoded filename. -/
theorem store_content_disposition_rule_witness :
    (Event.upload (formatObjectName sampleUrl) [1, 2, 3, 4] "text/plain"
        "attachment; filename=\"=?utf-8?q?f35?=\""
      ∈ (sampleClient.store sampleEnvOk emptyStore sampleUrl).2.1) ∧
    ∃ g, sampleEnvOk.get = .ok g ∧ g.status_code = 200 ∧
      ([1, 2, 3, 4] : List Nat) = g.content ∧
      "attachment; filename=\"=?utf-8?q?f35?=\"" =
        (match g.content_disposition with
         | some d => d
         | none =>
           if lastPathSegment (urlparsePath g.url) ≠ "" then
             "attachment; filename=\"" ++
               headerEncodeStr (lastPathSegment (urlparsePath g.url)) ++ "\""
           else "attachment") :=
  ⟨by decide,
   store_content_disposition_rule sampleClient sampleEnvOk emptyStore
     sampleUrl (formatObjectName sampleUrl) "text/plain"
     "attachment; filename=\"=?utf-8?q?f35?=\"" [1, 2, 3, 4] (by decide)⟩

/-- C6 counterexample: with a cached URL and a credential whose bearer
token is present but expired, `map` performs no refresh (no `credRefresh`
event) and signs with the stale token — the code only checks
`credentials.token is None`, never expiry. -/
theorem map_signing_cex :
    Client.map ⟨"kcidb-cache", 5242880⟩
      ⟨false, ⟨some "stale-token", true, "svc@example.iam"⟩, "fresh-token",
       fun sr => "signed(" ++ sr.access_token ++ ")"⟩
      (fun _ => true) "u" (some ⟨600000000⟩) =
      (.ok (some "signed(stale-token)"),
       [.existsCheck (formatObjectName "u")]) := by
  rfl

/-- C6 (amended): for a cached URL with a ttl, `map` refreshes the signing
credential only when its bearer token is absent (an expired but present
token is used as-is), then returns the backend's signed URL for a v4 GET
signing request with expiration exactly `ttl`, scoped to the credential's
service-account identity. -/
theorem map_signing (c : Client) (env : MapEnv) (s : StoreState)
    (url : String) (t : Timedelta)
    (her : env.existsRaises = false)
    (hc : s (formatObjectName url) = true) :
    c.map env s url (some t) =
      match env.credentials.token with
      | none =>
        (.ok (some (env.signedUrl
            ⟨"v4", "GET", t, env.credentials.service_account_email,
             env.refreshedToken⟩)),
         [.existsCheck (formatObjectName url), .credRefresh])
      | some tok =>
        (.ok (some (env.signedUrl
            ⟨"v4", "GET", t, env.credentials.service_account_email, tok⟩)),
         [.existsCheck (formatObjectName url)]) := by
  cases htok : env.credentials.token <;> simp [Client.map, her, hc, htok]

/-- C6 witness: an absent bearer token is refreshed and the refreshed
token signs the request. -/
theorem map_signing_witness :
    Client.map ⟨"kcidb-cache", 5242880⟩
      ⟨false, ⟨none, false, "svc@example.iam"⟩, "fresh-token",
       fun sr => "signed(" ++ sr.access_token ++ ")"⟩
      (fun _ => true) "u" (some ⟨600000000⟩) =
      (.ok (some "signed(fresh-token)"),
       [.existsCheck (formatObjectName "u"), .credRefresh]) :=
  map_signing ⟨"kcidb-cache", 5242880⟩
    ⟨false, ⟨none, false, "svc@example.iam"⟩, "fresh-token",
     fun sr => "signed(" ++ sr.access_token ++ ")"⟩
    (fun _ => true) "u" ⟨600000000⟩ rfl rfl

/-- C7: `map` with the ttl omitted returns `none` when no object exists
under the derived key, and otherwise the durable public address — a pure
function of the bucket name and the CacheKey — performing no side effect
beyond the existence check in either case. -/
theorem map_public_url (c : Client) (env : MapEnv) (s : StoreState)
    (url : String) (her : env.existsRaises = false) :
    (s (formatObjectName url) = false →
      c.map env s url none =
        (.ok none, [.existsCheck (formatObjectName url)])) ∧
    (s (formatObjectName url) = true →
      c.map env s url none =
        (.ok (some ("https://storage.googleapis.com/" ++ c.bucket_name ++
            "/" ++ formatObjectName url)),
         [.existsCheck (formatObjectName url)])) := by
  constructor <;> intro hc <;>
    simp [Client.map, Client.formatPublicUrl, her, hc]

/-- C7 witness: both branches at a concrete client and store. -/
theorem map_public_url_witness :
    (Client.map sampleClient
      ⟨false, ⟨none, false, "svc"⟩, "tok", fun _ => "x"⟩
      (fun _ => false) "u" none =
      (.ok none, [.existsCheck (formatObjectName "u")])) ∧
    (Client.map sampleClient
      ⟨false, ⟨none, false, "svc"⟩, "tok", fun _ => "x"⟩
      (fun _ => true) "u" none =
      (.ok (some ("https://storage.googleapis.com/kcidb-cache/" ++
          formatObjectName "u")),
       [.existsCheck (formatObjectName "u")])) :=
  ⟨(map_public_url sampleClient
      ⟨false, ⟨none, false, "svc"⟩, "tok", fun _ => "x"⟩
      (fun _ => false) "u" rfl).1 rfl,
   (map_public_url sampleClient
      ⟨false, ⟨none, false, "svc"⟩, "tok", fun _ => "x"⟩
      (fun _ => true) "u" rfl).2 rfl⟩

/-- C10: `map` asserts, before any storage access, that `url` is a string
and that `ttl` is `None` or a timedelta: the assertion fires — with no
side effect — exactly when the precondition is violated, and never fires
when it holds. -/
theorem map_assertion_guard (c : Client) (env : MapEnv) (s : StoreState)
    (url ttl : PyVal) :
    c.mapChecked env s url ttl = (.error .assertionError, []) ↔
      ¬ ((∃ u, url = .pyStr u) ∧
         (ttl = .pyNone ∨ ∃ t, ttl = .pyTd t)) := by
  have hne : ∀ u t, (c.map env s u t).2 ≠ [] := by
    intro u t
    cases her : env.existsRaises with
    | true => simp [Client.map, her]
    | false =>
      cases hc : s (formatObjectName u) with
      | false => simp [Client.map, her, hc]
      | true =>
        cases t with
        | none => simp [Client.map, her, hc]
        | some td =>
          cases htok : env.credentials.token <;>
            simp [Client.map, her, hc, htok]
  cases url with
  | pyStr u =>
    cases ttl with
    | pyNone =>
      exact ⟨fun h => (hne u none (by simpa using congrArg Prod.snd h)).elim,
             fun h => (h ⟨⟨u, rfl⟩, Or.inl rfl⟩).elim⟩
    | pyTd t =>
      exact ⟨fun h =>
               (hne u (some t) (by simpa using congrArg Prod.snd h)).elim,
             fun h => (h ⟨⟨u, rfl⟩, Or.inr ⟨t, rfl⟩⟩).elim⟩
    | pyStr v => simp [Client.mapChecked]
    | pyInt n => simp [Client.mapChecked]
  | pyNone => cases ttl <;> simp [Client.mapChecked]
  | pyTd t => cases ttl <;> simp [Client.mapChecked]
  | pyInt n => cases ttl <;> simp [Client.mapChecked]

/-- C3 counterexample: two divergences from the four enumerated
responses.  A GET whose raw query string carries a non-ASCII byte makes
the handler raise `UnicodeDecodeError` (surfacing as an internal server
error) instead of responding; and when the resolver returns the empty
string as an address, the gateway redirects to the original URL, not to
the returned address, because Python's `if cache:` treats `""` as
falsy. -/
theorem gateway_state_machine_cex :
    kcidb_cache_redirect ⟨"kcidb-cache", 5242880⟩
      ⟨false, ⟨some "tok", false, "svc"⟩, "fresh", fun _ => "x"⟩
      (fun _ => false) ⟨"GET", [255]⟩ = .error .unicodeDecodeError ∧
    ((⟨"kcidb-cache", 5242880⟩ : Client).map
        ⟨false, ⟨some "tok", false, "svc"⟩, "fresh", fun _ => ""⟩
        (fun _ => true) "u7" (some CACHE_REDIRECT_TTL)).1 = .ok (some "") ∧
    kcidb_cache_redirect ⟨"kcidb-cache", 5242880⟩
      ⟨false, ⟨some "tok", false, "svc"⟩, "fresh", fun _ => ""⟩
      (fun _ => true) ⟨"GET", [117, 55]⟩ =
      .ok ⟨"", 302, [("Location", "u7")]⟩ :=
  ⟨rfl, rfl, rfl⟩

/-- C3 (amended): for every request, the gateway responds 405 with
`Allow: GET` when the method is not GET; and when the method is GET and
the raw query string is ASCII-decodable: 400 with a human-readable
message when the percent-decoded query is empty, 302 to the resolver's
returned address when that address is non-empty, and 302 to the decoded
original URL when the resolver returns absent or an empty address.  (A
non-ASCII query byte raises instead, and a resolver error propagates.) -/
theorem gateway_state_machine (c : Client) (env : MapEnv) (s : StoreState)
    (request : HttpRequest) :
    (request.method ≠ "GET" →
      kcidb_cache_redirect c env s request =
        .ok ⟨"Method not allowed.", 405, [("Allow", "GET")]⟩) ∧
    (∀ qs, request.method = "GET" →
      asciiDecode request.query_string = some qs →
      ((pyUnquote qs = "" →
        kcidb_cache_redirect c env s request =
          .ok ⟨"Provide a valid URL to query from the caching system.",
               400, []⟩) ∧
       (∀ addr, pyUnquote qs ≠ "" → addr ≠ "" →
        (c.map env s (pyUnquote qs) (some CACHE_REDIRECT_TTL)).1 =
          .ok (some addr) →
        kcidb_cache_redirect c env s request =
          .ok ⟨"", 302, [("Location", addr)]⟩) ∧
       (pyUnquote qs ≠ "" →
        ((c.map env s (pyUnquote qs) (some CACHE_REDIRECT_TTL)).1 =
            .ok none ∨
         (c.map env s (pyUnquote qs) (some CACHE_REDIRECT_TTL)).1 =
            .ok (some "")) →
        kcidb_cache_redirect c env s request =
          .ok ⟨"", 302, [("Location", pyUnquote qs)]⟩))) := by
  refine ⟨?_, ?_⟩
  · intro hm
    simp [kcidb_cache_redirect, hm]
  · intro qs hm hq
    refine ⟨?_, ?_, ?_⟩
    · intro hempty
      simp [kcidb_cache_redirect, hm, hq, hempty]
    · intro addr hne hane hmap
      simp [kcidb_cache_redirect, hm, hq, hne, hmap, hane]
    · intro hne hmap
      rcases hmap with hmap | hmap <;>
        simp [kcidb_cache_redirect, hm, hq, hne, hmap]

/-- C3 witness: all four responses at concrete requests — a POST, an
empty query, a cached URL resolving to a signed address, and an uncached
URL falling back to the origin. -/
theorem gateway_state_machine_witness :
    (kcidb_cache_redirect sampleClient
      ⟨false, ⟨some "tok", false, "svc"⟩, "fresh", fun _ => "https://s/x"⟩
      (fun _ => true) ⟨"POST", []⟩ =
      .ok ⟨"Method not allowed.", 405, [("Allow", "GET")]⟩) ∧
    (kcidb_cache_redirect sampleClient
      ⟨false, ⟨some "tok", false, "svc"⟩, "fresh", fun _ => "https://s/x"⟩
      (fun _ => true) ⟨"GET", []⟩ =
      .ok ⟨"Provide a valid URL to query from the caching system.",
           400, []⟩) ∧
    (kcidb_cache_redirect sampleClient
      ⟨false, ⟨some "tok", false, "svc"⟩, "fresh", fun _ => "https://s/x"⟩
      (fun _ => true) ⟨"GET", [117, 55]⟩ =
      .ok ⟨"", 302, [("Location", "https://s/x")]⟩) ∧
    (kcidb_cache_redirect sampleClient
      ⟨false, ⟨some "tok", false, "svc"⟩, "fresh", fun _ => "https://s/x"⟩
      (fun _ => false) ⟨"GET", [117, 55]⟩ =
      .ok ⟨"", 302, [("Location", "u7")]⟩) :=
  ⟨(gateway_state_machine sampleClient
      ⟨false, ⟨some "tok", false, "svc"⟩, "fresh", fun _ => "https://s/x"⟩
      (fun _ => true) ⟨"POST", []⟩).1 (by decide),
   ((gateway_state_machine sampleClient
      ⟨false, ⟨some "tok", false, "svc"⟩, "fresh", fun _ => "https://s/x"⟩
      (fun _ => true) ⟨"GET", []⟩).2 "" rfl (by decide)).1 (by decide),
   (((gateway_state_machine sampleClient
      ⟨false, ⟨some "tok", false, "svc"⟩, "fresh", fun _ => "https://s/x"⟩
      (fun _ => true) ⟨"GET", [117, 55]⟩).2 "u7" rfl
      (by decide)).2.1 "https://s/x" (by decide) (by decide) rfl),
   (((gateway_state_machine sampleClient
      ⟨false, ⟨some "tok", false, "svc"⟩, "fresh", fun _ => "https://s/x"⟩
      (fun _ => false) ⟨"GET", [117, 55]⟩).2 "u7" rfl
      (by decide)).2.2 (by decide) (Or.inl rfl))⟩

/-- C8 counterexample: a batch of two non-empty lines where the first
URL's store raises (200 HEAD without Content-Type): the exception escapes
the entry point and `store` is never called on the second line — one
URL's failure does abort the remainder of the batch. -/
theorem cache_urls_abort_cex :
    pySplitlines "u7\nu8" = ["u7", "u8"] ∧
    kcidb_cache_urls ⟨"kcidb-cache", 5242880⟩
      (fun _ => ⟨false, .ok ⟨200, none, some "4", none, "u7", []⟩,
                 .exn, false⟩)
      (fun _ => false) "dTcKdTg=" =
      (.error .keyError, ["u7"], fun _ => false) :=
  ⟨by decide, rfl⟩

/-- C8 (amended): the ingestion entry point base64- and UTF-8-decodes the
batch and calls `store` once per line of the payload (empty lines
included), in order, synchronously and sequentially; when no `store` call
raises — in particular in benign environments, where all per-URL failures
are swallowed — every line, hence every non-empty line, receives exactly
one call; an exception escaping one call aborts the remaining lines. -/
theorem cache_urls_lines (c : Client) (envs : Nat → StoreEnv)
    (s : StoreState) (eventData : String) (bs : List Nat) (msg : String)
    (hb : b64Decode eventData = some bs)
    (hu : utf8DecodeStrict bs = some msg)
    (henv : ∀ i, benignEnv (envs i) = true) :
    (kcidb_cache_urls c envs s eventData).1 = .ok () ∧
    (kcidb_cache_urls c envs s eventData).2.1 = pySplitlines msg := by
  have main : ∀ (lines : List String) (i : Nat) (st : StoreState),
      (storeBatch c envs i st lines).1 = .ok () ∧
      (storeBatch c envs i st lines).2.1 = lines := by
    intro lines
    induction lines with
    | nil => exact fun i st => ⟨rfl, rfl⟩
    | cons url rest ih =>
      intro i st
      have hret : (c.store (envs i) st url).1 = .ret :=
        store_benign_ret c (envs i) st url (henv i)
      rcases hres : c.store (envs i) st url with ⟨o, ev, st2⟩
      rw [hres] at hret
      dsimp at hret
      subst hret
      have hbatch : storeBatch c envs i st (url :: rest) =
          ((storeBatch c envs (i + 1) st2 rest).1,
           url :: (storeBatch c envs (i + 1) st2 rest).2.1,
           (storeBatch c envs (i + 1) st2 rest).2.2) := by
        simp only [storeBatch, hres]
      rw [hbatch]
      exact ⟨(ih (i + 1) st2).1, by simp [(ih (i + 1) st2).2]⟩
  have hurls : kcidb_cache_urls c envs s eventData =
      storeBatch c envs 0 s (pySplitlines msg) := by
    simp only [kcidb_cache_urls, hb, hu]
  rw [hurls]
  exact main (pySplitlines msg) 0 s

/-- C8 witness: a two-line batch under an unreachable origin (all
failures swallowed): both lines are stored in order and the entry point
returns normally. -/
theorem cache_urls_lines_witness :
    b64Decode "dTcKdTg=" = some [117, 55, 10, 117, 56] ∧
    utf8DecodeStrict [117, 55, 10, 117, 56] = some "u7\nu8" ∧
    (∀ i : Nat, benignEnv ((fun _ : Nat => sampleEnvExn) i) = true) ∧
    (kcidb_cache_urls sampleClient (fun _ : Nat => sampleEnvExn) emptyStore
      "dTcKdTg=").1 = .ok () ∧
    (kcidb_cache_urls sampleClient (fun _ : Nat => sampleEnvExn) emptyStore
      "dTcKdTg=").2.1 = pySplitlines "u7\nu8" :=
  ⟨by decide, by decide,
   fun (i : Nat) => (by decide : benignEnv sampleEnvExn = true),
   (cache_urls_lines sampleClient (fun _ : Nat => sampleEnvExn) emptyStore
     "dTcKdTg=" [117, 55, 10, 117, 56] "u7\nu8"
     (by decide) (by decide)
     (fun (i : Nat) => (by decide : benignEnv sampleEnvExn = true))).1,
   (cache_urls_lines sampleClient (fun _ : Nat => sampleEnvExn) emptyStore
     "dTcKdTg=" [117, 55, 10, 117, 56] "u7\nu8"
     (by decide) (by decide)
     (fun (i : Nat) => (by decide : benignEnv sampleEnvExn = true))).2⟩

end KcidbCache
